import Mathlib

/-!
Shallow embedding of the VisionTalk image-chat server.

Sources embedded:
- src/types.ts : the message model (MessageRole, MessagePart, ChatMessage).
- server (Express) : getOpenAIClient, getHFClient and the POST /api/analyze
  handler, which selects between the Hugging Face hosted-inference adapter
  and the OpenAI/Ollama OpenAI-compatible adapter.
- services/geminiService : analyzeImageAndChat, the hosted-generation
  (Gemini) adapter.

Environment variables are modelled as Option String where some s means the
variable is set to a truthy (non-empty) string, mirroring JavaScript
truthiness checks in the source. Outbound provider calls are modelled as
oracle functions passed to the handler; an oracle result Except.ok t stands
for a resolved provider response whose first choice message content is t,
and Except.error e stands for a rejected call whose error message is e.
The first component of the handler result records which provider was
invoked and with which outbound request body, so that claims about call
selection and about the outbound wire format can be stated.
-/

namespace VisionTalk

/-- Role of a chat message, from src/types.ts MessageRole. -/
inductive MessageRole
  | user
  | assistant
deriving DecidableEq, Repr

/-- Inline image payload: base64 data and declared mime type, from src/types.ts. -/
structure ImagePayload where
  data : String
  mimeType : String
deriving DecidableEq, Repr

/-- One part of a chat message: optional text, optional image, from src/types.ts MessagePart. -/
structure MessagePart where
  text : Option String := none
  image : Option ImagePayload := none
deriving DecidableEq, Repr

/-- A chat message, from src/types.ts ChatMessage. -/
structure ChatMessage where
  id : String
  role : MessageRole
  parts : List MessagePart
  timestamp : Nat
deriving DecidableEq, Repr

/-- Environment configuration read per request. some s models a set, truthy
(non-empty) environment variable; none models unset or empty. -/
structure Env where
  huggingfaceApiKey : Option String := none
  ollamaApiKey : Option String := none
  openaiApiKey : Option String := none
  ollamaBaseUrl : Option String := none
deriving DecidableEq, Repr

/-- JavaScript a || b on truthy-modelled option strings. -/
def jsOr (a b : Option String) : Option String :=
  match a with
  | some s => some s
  | none => b

/-- The OpenAI SDK client configuration built by getOpenAIClient. -/
structure OpenAIClient where
  apiKey : String
  baseURL : Option String
deriving DecidableEq, Repr

/-- getOpenAIClient: apiKey is OLLAMA_API_KEY || OPENAI_API_KEY; returns null
when neither a key nor OLLAMA_BASE_URL is set; otherwise a client whose key
defaults to a dummy value for Ollama and whose baseURL is OLLAMA_BASE_URL. -/
def getOpenAIClient (env : Env) : Option OpenAIClient :=
  let apiKey := jsOr env.ollamaApiKey env.openaiApiKey
  if apiKey = none ∧ env.ollamaBaseUrl = none then none
  else some { apiKey := apiKey.getD "dummy-key-for-ollama", baseURL := env.ollamaBaseUrl }

/-- getHFClient: a Hugging Face client exactly when HUGGINGFACE_API_KEY is set. -/
def getHFClient (env : Env) : Option String :=
  env.huggingfaceApiKey

/-- Serialized role string of a message role. -/
def MessageRole.str : MessageRole → String
  | .user => "user"
  | .assistant => "assistant"

/-- The language instruction appended to the system instruction by the server
and by the Gemini adapter. -/
def langInstruction (language : String) : String :=
  "\n\nIMPORTANT: You MUST provide your response in " ++ language ++ "."

/-- fullSystemInstruction = systemInstruction + langInstruction. -/
def fullSystemInstruction (systemInstruction language : String) : String :=
  systemInstruction ++ langInstruction language

/-- One step of the forEach over the latest user message parts: if p.image is
truthy it overwrites lastImage, if p.text is truthy (non-empty) it overwrites
lastText. -/
def scanStep (acc : Option ImagePayload × String) (p : MessagePart) :
    Option ImagePayload × String :=
  ( match p.image with
    | some i => some i
    | none => acc.1,
    match p.text with
    | some t => if t = "" then acc.2 else t
    | none => acc.2 )

/-- The forEach over a part list, starting from lastImage = null, lastText = "". -/
def scanParts (parts : List MessagePart) : Option ImagePayload × String :=
  parts.foldl scanStep (none, "")

/-- The most recent user-role message: spread-copy, reverse, find role user. -/
def lastUserMsg (messages : List ChatMessage) : Option ChatMessage :=
  messages.reverse.find? (fun m => m.role == MessageRole.user)

/-- One entry of a content array in the outbound chat format: an image_url
entry carrying a data URI, or a text entry. -/
inductive ContentPart
  | image_url (url : String)
  | text (s : String)
deriving DecidableEq, Repr

/-- Content of one outbound message: a plain string or a content array. -/
inductive MessageContent
  | str (s : String)
  | parts (l : List ContentPart)
deriving DecidableEq, Repr

/-- One outbound chat message. -/
structure OutMessage where
  role : String
  content : MessageContent
deriving DecidableEq, Repr

/-- An outbound chat-completion request body. -/
structure ChatRequest where
  model : String
  messages : List OutMessage
  max_tokens : Nat
deriving DecidableEq, Repr

/-- Text-only serialization of one message: m.parts.map(p.text || "").join(" "). -/
def textContent (m : ChatMessage) : String :=
  String.intercalate " " (m.parts.map (fun p => p.text.getD ""))

/-- Content-array serialization of one part: an image becomes an image_url
entry with a base64 data URI, anything else a text entry with p.text || "".
This mapping appears verbatim in both the Hugging Face multimodal branch and
the OpenAI/Ollama branch of the handler. -/
def partContent (p : MessagePart) : ContentPart :=
  match p.image with
  | some img => .image_url ("data:" ++ img.mimeType ++ ";base64," ++ img.data)
  | none => .text (p.text.getD "")

/-- Content-array serialization of one message. -/
def formatMessage (m : ChatMessage) : OutMessage :=
  { role := m.role.str, content := .parts (m.parts.map partContent) }

/-- The model name used on the Hugging Face path. -/
def hfModel : String := "meta-llama/Llama-3.2-11B-Vision-Instruct"

/-- The text-only Hugging Face request: system message then every conversation
message as pure text, max_tokens 500. -/
def hfTextRequest (messages : List ChatMessage) (fullSys : String) : ChatRequest :=
  { model := hfModel,
    messages := { role := "system", content := .str fullSys } ::
      messages.map (fun m => { role := m.role.str, content := .str (textContent m) }),
    max_tokens := 500 }

/-- The multimodal Hugging Face request: system message then every
conversation message as a content array, max_tokens 1000. -/
def hfImageRequest (messages : List ChatMessage) (fullSys : String) : ChatRequest :=
  { model := hfModel,
    messages := { role := "system", content := .str fullSys } :: messages.map formatMessage,
    max_tokens := 1000 }

/-- The request the Hugging Face path builds: scan the most recent user
message; when no image was seen take the text-only branch, otherwise the
multimodal branch. -/
def hfSelectedRequest (messages : List ChatMessage) (fullSys : String) : ChatRequest :=
  let scanned :=
    match lastUserMsg messages with
    | some m => scanParts m.parts
    | none => (none, "")
  match scanned.1 with
  | none => hfTextRequest messages fullSys
  | some _ => hfImageRequest messages fullSys

/-- The OpenAI/Ollama request: model llava when OLLAMA_BASE_URL is set,
gpt-4o otherwise; system message then every conversation message as a
content array, max_tokens 1000. -/
def openaiRequest (env : Env) (messages : List ChatMessage) (fullSys : String) : ChatRequest :=
  let isOllama := env.ollamaBaseUrl.isSome
  { model := if isOllama then "llava" else "gpt-4o",
    messages := { role := "system", content := .str fullSys } :: messages.map formatMessage,
    max_tokens := 1000 }

/-- The request body of POST /api/analyze. -/
structure AnalyzeInput where
  messages : List ChatMessage
  systemInstruction : String
  language : String
deriving DecidableEq, Repr

/-- The JSON body of the HTTP response: a text field or an error field. -/
inductive ResponseBody
  | text (s : String)
  | error (s : String)
deriving DecidableEq, Repr

/-- An HTTP response: status code and JSON body. -/
structure HttpResponse where
  status : Nat
  body : ResponseBody
deriving DecidableEq, Repr

/-- Which provider the handler invoked, and with which outbound request. -/
inductive OutboundCall
  | none
  | hf (req : ChatRequest)
  | openai (req : ChatRequest)
deriving DecidableEq, Repr

/-- The configuration-error message returned when no provider is configured. -/
def noKeysError : String :=
  "No API keys configured. Please set HUGGINGFACE_API_KEY, OPENAI_API_KEY, or OLLAMA_BASE_URL."

/-- The POST /api/analyze handler. hfResult and oaiResult are the provider
call oracles: ok t is a resolved response whose first choice message content
is t, error e a rejected call with message e. A Hugging Face rejection is
caught in the branch and rewrapped; an OpenAI/Ollama rejection reaches the
outer catch, which falls back to a generic message when the message is empty. -/
def analyze (env : Env) (input : AnalyzeInput)
    (hfResult : ChatRequest → Except String String)
    (oaiResult : ChatRequest → Except String String) :
    OutboundCall × HttpResponse :=
  let hf := getHFClient env
  let openai := getOpenAIClient env
  if hf = none ∧ openai = none then
    (.none, ⟨500, .error noKeysError⟩)
  else
    let fullSys := fullSystemInstruction input.systemInstruction input.language
    match hf with
    | some _ =>
        let req := hfSelectedRequest input.messages fullSys
        match hfResult req with
        | .ok t => (.hf req, ⟨200, .text t⟩)
        | .error e => (.hf req, ⟨500, .error ("Hugging Face Error: " ++ e)⟩)
    | none =>
        match openai with
        | some _ =>
            let req := openaiRequest env input.messages fullSys
            match oaiResult req with
            | .ok t => (.openai req, ⟨200, .text t⟩)
            | .error e =>
                (.openai req, ⟨500, .error (if e = "" then "An unexpected error occurred." else e)⟩)
        | none => (.none, ⟨500, .error "No provider available to handle the request."⟩)

/-- One part of a Gemini content: inline binary data or plain text. -/
inductive GeminiPart
  | inlineData (data : String) (mimeType : String)
  | text (s : String)
deriving DecidableEq, Repr

/-- One Gemini content entry: provider role and parts. -/
structure GeminiContent where
  role : String
  parts : List GeminiPart
deriving DecidableEq, Repr

/-- The Gemini generateContent request: model, contents, system instruction
and sampling temperature. -/
structure GeminiRequest where
  model : String
  contents : List GeminiContent
  systemInstruction : String
  temperature : ℚ
deriving DecidableEq, Repr

/-- The Gemini model name constant. -/
def GEMINI_MODEL : String := "gemini-3-flash-preview"

/-- Gemini serialization of one part: an image becomes inlineData with its
base64 data and mime type, anything else a text part with part.text || "". -/
def geminiPartOf (p : MessagePart) : GeminiPart :=
  match p.image with
  | some img => .inlineData img.data img.mimeType
  | none => .text (p.text.getD "")

/-- Gemini serialization of one message: role model for assistant, user
otherwise, and the serialized parts. -/
def geminiContentOf (m : ChatMessage) : GeminiContent :=
  { role := if m.role = MessageRole.assistant then "model" else "user",
    parts := m.parts.map geminiPartOf }

/-- The substitute text returned by the Gemini adapter when the response
carries no text. -/
def geminiFallback : String := "I\x27m sorry, I couldn\x27t analyze that image."

/-- The generateContent request the Gemini adapter builds: the fixed model,
the converted contents, the system instruction with the language instruction
appended, and temperature 0.7. -/
def geminiRequest (messages : List ChatMessage)
    (systemInstruction language : String) : GeminiRequest :=
  { model := GEMINI_MODEL,
    contents := messages.map geminiContentOf,
    systemInstruction := systemInstruction ++ langInstruction language,
    temperature := 0.7 }

/-- The Gemini adapter analyzeImageAndChat. apiKey models GEMINI_API_KEY.
callGemini is the generateContent oracle: error e is a rejected call
(uncaught, so propagated), ok t a resolved response whose text field is t
(none when the response has no text, modelling a falsy text field). The
first component records the single request sent, none when no call was made. -/
def analyzeImageAndChat (apiKey : Option String) (messages : List ChatMessage)
    (systemInstruction : String) (language : String)
    (callGemini : GeminiRequest → Except String (Option String)) :
    Option GeminiRequest × Except String String :=
  match apiKey with
  | none => (none, .error "GEMINI_API_KEY is not configured.")
  | some _ =>
      let req := geminiRequest messages systemInstruction language
      match callGemini req with
      | .error e => (some req, .error e)
      | .ok t =>
          (some req, .ok (match t with
            | some s => if s = "" then geminiFallback else s
            | none => geminiFallback))

/-- Concrete environment: only the Hugging Face credential set. -/
def envHFOnly : Env := { huggingfaceApiKey := some "hf-key" }

/-- Concrete environment: every provider signal set. -/
def envAll : Env :=
  { huggingfaceApiKey := some "hf-key", ollamaApiKey := some "ol-key",
    openaiApiKey := some "oa-key", ollamaBaseUrl := some "http://localhost:11434" }

/-- Concrete environment: only the OpenAI key set. -/
def envOpenAIOnly : Env := { openaiApiKey := some "oa-key" }

/-- Concrete environment: only the Ollama base URL set. -/
def envOllamaOnly : Env := { ollamaBaseUrl := some "http://localhost:11434" }

/-- Concrete environment: nothing configured. -/
def envNone : Env := {}

/-- Oracle that always resolves with a fixed text. -/
def okOracle : ChatRequest → Except String String := fun _ => .ok "a detailed description"

/-- Oracle that always rejects with a fixed message. -/
def failOracle : ChatRequest → Except String String := fun _ => .error "model overloaded"

/-- A concrete text-only user message. -/
def sampleTextMsg : ChatMessage :=
  { id := "1", role := .user, parts := [{ text := some "Hello" }], timestamp := 0 }

/-- A concrete assistant message. -/
def sampleAssistantMsg : ChatMessage :=
  { id := "2", role := .assistant, parts := [{ text := some "Hi there" }], timestamp := 1 }

/-- A concrete text-only analyze input. -/
def textInput : AnalyzeInput :=
  { messages := [sampleTextMsg], systemInstruction := "Describe.", language := "English" }

/-- The image part of the specification scenario. -/
def scenarioImagePart : MessagePart := { image := some { data := "AAA", mimeType := "image/png" } }

/-- The text part of the specification scenario. -/
def scenarioTextPart : MessagePart := { text := some "What is this?" }

/-- The user message of the specification scenario. -/
def scenarioMsg : ChatMessage :=
  { id := "1", role := .user, parts := [scenarioImagePart, scenarioTextPart], timestamp := 0 }

/-- The analyze input of the specification scenario. -/
def scenarioInput : AnalyzeInput :=
  { messages := [scenarioMsg], systemInstruction := "Describe.", language := "French" }

/-- An earlier user message carrying a different image. -/
def earlierImageMsg : ChatMessage :=
  { id := "0", role := .user,
    parts := [{ image := some { data := "BBB", mimeType := "image/jpeg" } }], timestamp := 0 }

/-- A two-message conversation with images in both turns. -/
def multiImageInput : AnalyzeInput :=
  { messages := [earlierImageMsg, scenarioMsg],
    systemInstruction := "Describe.", language := "English" }

/-- An analyze input with an empty conversation. -/
def emptyInput : AnalyzeInput :=
  { messages := [], systemInstruction := "Describe.", language := "English" }

/-- An analyze input whose only message is from the assistant. -/
def assistantOnlyInput : AnalyzeInput :=
  { messages := [sampleAssistantMsg], systemInstruction := "Describe.", language := "English" }

/-- Gemini oracle resolving with text. -/
def gOkOracle : GeminiRequest → Except String (Option String) := fun _ => .ok (some "ok text")

/-- Gemini oracle resolving with no text field. -/
def gNoneOracle : GeminiRequest → Except String (Option String) := fun _ => .ok none

/-- Gemini oracle rejecting the call. -/
def gFailOracle : GeminiRequest → Except String (Option String) := fun _ => .error "quota exceeded"

/-- An OpenAI client exists exactly when one of the two keys or the base URL is set. -/
theorem getOpenAIClient_isSome_iff (env : Env) :
    (getOpenAIClient env).isSome ↔
      env.ollamaApiKey.isSome ∨ env.openaiApiKey.isSome ∨ env.ollamaBaseUrl.isSome := by
  rcases env with ⟨h, ola, oa, ob⟩
  unfold getOpenAIClient jsOr
  cases ola <;> cases oa <;> cases ob <;> simp

/-- No OpenAI client exactly when both keys and the base URL are absent. -/
theorem getOpenAIClient_eq_none_iff (env : Env) :
    getOpenAIClient env = none ↔
      env.ollamaApiKey = none ∧ env.openaiApiKey = none ∧ env.ollamaBaseUrl = none := by
  rcases env with ⟨h, ola, oa, ob⟩
  unfold getOpenAIClient jsOr
  cases ola <;> cases oa <;> cases ob <;> simp

/-- Unfolding of analyze when the Hugging Face credential is present. -/
theorem analyze_hf_eq (env : Env) (input : AnalyzeInput)
    (hfR oaiR : ChatRequest → Except String String) (k : String)
    (hk : env.huggingfaceApiKey = some k) :
    analyze env input hfR oaiR =
      (OutboundCall.hf (hfSelectedRequest input.messages
          (fullSystemInstruction input.systemInstruction input.language)),
        match hfR (hfSelectedRequest input.messages
            (fullSystemInstruction input.systemInstruction input.language)) with
        | .ok t => ⟨200, .text t⟩
        | .error e => ⟨500, .error ("Hugging Face Error: " ++ e)⟩) := by
  unfold analyze getHFClient
  rw [hk]
  simp only [Option.some_ne_none, false_and, if_false]
  cases hfR (hfSelectedRequest input.messages
      (fullSystemInstruction input.systemInstruction input.language)) <;> rfl

/-- Unfolding of analyze when the Hugging Face credential is absent but an
OpenAI client exists. -/
theorem analyze_openai_eq (env : Env) (input : AnalyzeInput)
    (hfR oaiR : ChatRequest → Except String String) (c : OpenAIClient)
    (hk : env.huggingfaceApiKey = none) (hc : getOpenAIClient env = some c) :
    analyze env input hfR oaiR =
      (OutboundCall.openai (openaiRequest env input.messages
          (fullSystemInstruction input.systemInstruction input.language)),
        match oaiR (openaiRequest env input.messages
            (fullSystemInstruction input.systemInstruction input.language)) with
        | .ok t => ⟨200, .text t⟩
        | .error e =>
            ⟨500, .error (if e = "" then "An unexpected error occurred." else e)⟩) := by
  unfold analyze getHFClient
  rw [hk, hc]
  simp only [Option.some_ne_none, and_false, if_false]
  cases oaiR (openaiRequest env input.messages
      (fullSystemInstruction input.systemInstruction input.language)) <;> rfl

/-- Unfolding of analyze when nothing is configured. -/
theorem analyze_none_eq (env : Env) (input : AnalyzeInput)
    (hfR oaiR : ChatRequest → Except String String)
    (hk : env.huggingfaceApiKey = none) (hc : getOpenAIClient env = none) :
    analyze env input hfR oaiR = (OutboundCall.none, ⟨500, .error noKeysError⟩) := by
  unfold analyze getHFClient
  rw [hk, hc]
  simp

/-- C1: when HUGGINGFACE_API_KEY is present the handler invokes the Hugging
Face adapter and never the OpenAI-compatible one, whatever else is
configured; the OpenAI-compatible adapter is invoked exactly when the
Hugging Face credential is absent and an OpenAI-style key (OPENAI_API_KEY or
OLLAMA_API_KEY) or the OLLAMA_BASE_URL override is present. -/
theorem c1_provider_priority (env : Env) (input : AnalyzeInput)
    (hfR oaiR : ChatRequest → Except String String) :
    (env.huggingfaceApiKey.isSome →
      (analyze env input hfR oaiR).1 =
        .hf (hfSelectedRequest input.messages
          (fullSystemInstruction input.systemInstruction input.language))) ∧
    (∀ req, (analyze env input hfR oaiR).1 = .openai req →
      env.huggingfaceApiKey = none ∧
        (env.ollamaApiKey.isSome ∨ env.openaiApiKey.isSome ∨ env.ollamaBaseUrl.isSome)) ∧
    (env.huggingfaceApiKey = none ∧
        (env.ollamaApiKey.isSome ∨ env.openaiApiKey.isSome ∨ env.ollamaBaseUrl.isSome) →
      (analyze env input hfR oaiR).1 =
        .openai (openaiRequest env input.messages
          (fullSystemInstruction input.systemInstruction input.language))) := by
  refine ⟨?_, ?_, ?_⟩
  · intro h
    obtain ⟨k, hk⟩ := Option.isSome_iff_exists.mp h
    rw [analyze_hf_eq env input hfR oaiR k hk]
  · intro req h
    cases hk : env.huggingfaceApiKey with
    | some k =>
        rw [analyze_hf_eq env input hfR oaiR k hk] at h
        exact absurd h (by simp)
    | none =>
        cases hc : getOpenAIClient env with
        | none =>
            rw [analyze_none_eq env input hfR oaiR hk hc] at h
            exact absurd h (by simp)
        | some c =>
            refine ⟨rfl, (getOpenAIClient_isSome_iff env).mp ?_⟩
            rw [hc]; rfl
  · rintro ⟨h1, h2⟩
    obtain ⟨c, hc⟩ := Option.isSome_iff_exists.mp ((getOpenAIClient_isSome_iff env).mpr h2)
    rw [analyze_openai_eq env input hfR oaiR c h1 hc]

/-- Witness for C1 at concrete environments: with every signal set the call
goes to Hugging Face; with only the OpenAI key set it goes to the
OpenAI-compatible adapter. -/
theorem c1_provider_priority_witness :
    (analyze envAll textInput okOracle okOracle).1 =
      .hf (hfSelectedRequest textInput.messages
        (fullSystemInstruction textInput.systemInstruction textInput.language)) ∧
    (analyze envOpenAIOnly textInput okOracle okOracle).1 =
      .openai (openaiRequest envOpenAIOnly textInput.messages
        (fullSystemInstruction textInput.systemInstruction textInput.language)) :=
  ⟨(c1_provider_priority envAll textInput okOracle okOracle).1 rfl,
   (c1_provider_priority envOpenAIOnly textInput okOracle okOracle).2.2
     ⟨rfl, Or.inr (Or.inl rfl)⟩⟩

/-- C2: when the Hugging Face adapter is selected and its call rejects, the
handler returns that provider error (status 500, message wrapped as a Hugging
Face error) and invokes no lower-priority provider: the outcome is the same
whatever the OpenAI oracle would have answered, and the recorded call is the
Hugging Face one. -/
theorem c2_no_runtime_fallback (env : Env) (input : AnalyzeInput)
    (hfR oaiR : ChatRequest → Except String String) (e : String)
    (hk : env.huggingfaceApiKey.isSome)
    (hfail : hfR (hfSelectedRequest input.messages
      (fullSystemInstruction input.systemInstruction input.language)) = .error e) :
    analyze env input hfR oaiR =
      (.hf (hfSelectedRequest input.messages
          (fullSystemInstruction input.systemInstruction input.language)),
       ⟨500, .error ("Hugging Face Error: " ++ e)⟩) := by
  obtain ⟨k, hkk⟩ := Option.isSome_iff_exists.mp hk
  rw [analyze_hf_eq env input hfR oaiR k hkk, hfail]

/-- Witness for C2: both providers configured, the Hugging Face oracle
rejects, the OpenAI oracle would succeed; the handler still reports the
Hugging Face error. -/
theorem c2_no_runtime_fallback_witness :
    analyze envAll textInput failOracle okOracle =
      (.hf (hfSelectedRequest textInput.messages
          (fullSystemInstruction textInput.systemInstruction textInput.language)),
       ⟨500, .error ("Hugging Face Error: " ++ "model overloaded")⟩) :=
  c2_no_runtime_fallback envAll textInput failOracle okOracle "model overloaded" rfl rfl

/-- C3: with no provider signal configured at all, the handler answers status
500 with an error field naming the required configuration variables and
records no outbound call. -/
theorem c3_no_provider_config_error (env : Env) (input : AnalyzeInput)
    (hfR oaiR : ChatRequest → Except String String)
    (h1 : env.huggingfaceApiKey = none) (h2 : env.ollamaApiKey = none)
    (h3 : env.openaiApiKey = none) (h4 : env.ollamaBaseUrl = none) :
    analyze env input hfR oaiR =
      (OutboundCall.none, ⟨500, ResponseBody.error noKeysError⟩) ∧
    noKeysError =
      "No API keys configured. Please set HUGGINGFACE_API_KEY, OPENAI_API_KEY, or OLLAMA_BASE_URL." :=
  ⟨analyze_none_eq env input hfR oaiR h1
      ((getOpenAIClient_eq_none_iff env).mpr ⟨h2, h3, h4⟩), rfl⟩

/-- Witness for C3 at the empty environment. -/
theorem c3_no_provider_config_error_witness :
    analyze envNone textInput okOracle okOracle =
      (OutboundCall.none, ⟨500, ResponseBody.error noKeysError⟩) :=
  (c3_no_provider_config_error envNone textInput okOracle okOracle rfl rfl rfl rfl).1

/-- The parts scan keeps the incoming image when no scanned part carries one. -/
theorem foldl_scanStep_no_image (parts : List MessagePart)
    (acc : Option ImagePayload × String) (h : ∀ p ∈ parts, p.image = none) :
    (parts.foldl scanStep acc).1 = acc.1 := by
  induction parts generalizing acc with
  | nil => rfl
  | cons p ps ih =>
      rw [List.foldl_cons,
        ih (scanStep acc p) (fun q hq => h q (List.mem_cons_of_mem p hq))]
      have hp : p.image = none := h p (List.mem_cons_self p ps)
      simp [scanStep, hp]

/-- A part list with no image scans to no image. -/
theorem scanParts_no_image (parts : List MessagePart)
    (h : ∀ p ∈ parts, p.image = none) : (scanParts parts).1 = none :=
  foldl_scanStep_no_image parts (none, "") h

/-- The scan returns the image of the last image-carrying part. -/
theorem scanParts_last_image (l₁ l₂ : List MessagePart) (p : MessagePart) (i : ImagePayload)
    (hp : p.image = some i) (h₂ : ∀ q ∈ l₂, q.image = none) :
    (scanParts (l₁ ++ p :: l₂)).1 = some i := by
  unfold scanParts
  rw [List.foldl_append, List.foldl_cons, foldl_scanStep_no_image l₂ _ h₂]
  simp [scanStep, hp]

/-- The Hugging Face path takes the text-only branch when the latest user
message scans to no image. -/
theorem hfSelectedRequest_text (messages : List ChatMessage) (fullSys : String)
    (m : ChatMessage) (hm : lastUserMsg messages = some m)
    (h : (scanParts m.parts).1 = none) :
    hfSelectedRequest messages fullSys = hfTextRequest messages fullSys := by
  simp [hfSelectedRequest, hm, h]

/-- The Hugging Face path takes the multimodal branch when the latest user
message scans to an image. -/
theorem hfSelectedRequest_image (messages : List ChatMessage) (fullSys : String)
    (m : ChatMessage) (i : ImagePayload) (hm : lastUserMsg messages = some m)
    (h : (scanParts m.parts).1 = some i) :
    hfSelectedRequest messages fullSys = hfImageRequest messages fullSys := by
  simp [hfSelectedRequest, hm, h]

/-- A conversation without a user-role message has no latest user message. -/
theorem lastUserMsg_eq_none (messages : List ChatMessage)
    (h : ∀ m ∈ messages, m.role ≠ MessageRole.user) :
    lastUserMsg messages = none := by
  unfold lastUserMsg
  rw [List.find?_eq_none]
  intro m hm
  simp only [beq_iff_eq]
  exact h m (List.mem_reverse.mp hm)

/-- C4: when the latest user message has no image part, the Hugging Face
adapter sends the text-only request: output budget 500 tokens, a system
message followed by one plain-string message per conversation message whose
content is the space-joined text of its parts, and no content array (hence no
image payload) anywhere in the body. -/
theorem c4_text_only_branch (env : Env) (input : AnalyzeInput)
    (hfR oaiR : ChatRequest → Except String String) (m : ChatMessage)
    (hk : env.huggingfaceApiKey.isSome)
    (hm : lastUserMsg input.messages = some m)
    (hnoimg : ∀ p ∈ m.parts, p.image = none) :
    (analyze env input hfR oaiR).1 =
      .hf (hfTextRequest input.messages
        (fullSystemInstruction input.systemInstruction input.language)) ∧
    (hfTextRequest input.messages
        (fullSystemInstruction input.systemInstruction input.language)).max_tokens = 500 ∧
    (hfTextRequest input.messages
        (fullSystemInstruction input.systemInstruction input.language)).messages =
      { role := "system",
        content := .str (fullSystemInstruction input.systemInstruction input.language) } ::
        input.messages.map (fun mm =>
          { role := mm.role.str,
            content := .str (String.intercalate " "
              (mm.parts.map (fun p => p.text.getD ""))) }) ∧
    (∀ om ∈ (hfTextRequest input.messages
        (fullSystemInstruction input.systemInstruction input.language)).messages,
      ∃ s, om.content = .str s) := by
  obtain ⟨k, hkk⟩ := Option.isSome_iff_exists.mp hk
  refine ⟨?_, rfl, rfl, ?_⟩
  · rw [analyze_hf_eq env input hfR oaiR k hkk,
      hfSelectedRequest_text input.messages _ m hm (scanParts_no_image m.parts hnoimg)]
  · intro om hom
    simp only [hfTextRequest, List.mem_cons] at hom
    rcases hom with h | h
    · exact ⟨_, by rw [h]⟩
    · obtain ⟨mm, _, rfl⟩ := List.mem_map.mp h
      exact ⟨textContent mm, rfl⟩

/-- Witness for C4 at a one-message text conversation. -/
theorem c4_text_only_branch_witness :
    (analyze envHFOnly textInput okOracle okOracle).1 =
      .hf (hfTextRequest textInput.messages
        (fullSystemInstruction textInput.systemInstruction textInput.language)) :=
  (c4_text_only_branch envHFOnly textInput okOracle okOracle sampleTextMsg rfl rfl
    (by decide)).1

/-- C5: when the latest user message has exactly one image part, the Hugging
Face adapter takes the multimodal branch: the outbound body starts with the
system message carrying the system instruction with the language instruction
appended (so it ends in the language name followed by a period), the
conversation message is serialized as a content array containing an
image_url entry whose URL is the base64 data URI with the declared mime type
and a text entry for each text part, and on provider success the handler
returns the provider text with status 200. -/
theorem c5_image_scenario (env : Env) (input : AnalyzeInput)
    (hfR oaiR : ChatRequest → Except String String)
    (m : ChatMessage) (l₁ l₂ : List MessagePart) (p : MessagePart) (i : ImagePayload)
    (hk : env.huggingfaceApiKey.isSome)
    (hm : lastUserMsg input.messages = some m)
    (hparts : m.parts = l₁ ++ p :: l₂)
    (hp : p.image = some i)
    (_h₁ : ∀ q ∈ l₁, q.image = none)
    (h₂ : ∀ q ∈ l₂, q.image = none) :
    (analyze env input hfR oaiR).1 =
      .hf (hfImageRequest input.messages
        (fullSystemInstruction input.systemInstruction input.language)) ∧
    (hfImageRequest input.messages
        (fullSystemInstruction input.systemInstruction input.language)).messages.head? =
      some { role := "system",
             content := .str (fullSystemInstruction input.systemInstruction input.language) } ∧
    (∃ pre, fullSystemInstruction input.systemInstruction input.language =
      pre ++ input.language ++ ".") ∧
    ContentPart.image_url ("data:" ++ i.mimeType ++ ";base64," ++ i.data) ∈
      m.parts.map partContent ∧
    OutMessage.mk m.role.str (.parts (m.parts.map partContent)) ∈
      (hfImageRequest input.messages
        (fullSystemInstruction input.systemInstruction input.language)).messages ∧
    (∀ t q, q ∈ m.parts → q.image = none → q.text = some t →
      ContentPart.text t ∈ m.parts.map partContent) ∧
    (∀ t, hfR (hfImageRequest input.messages
        (fullSystemInstruction input.systemInstruction input.language)) = .ok t →
      (analyze env input hfR oaiR).2 = ⟨200, .text t⟩) := by
  obtain ⟨k, hkk⟩ := Option.isSome_iff_exists.mp hk
  have hscan : (scanParts m.parts).1 = some i := by
    rw [hparts]; exact scanParts_last_image l₁ l₂ p i hp h₂
  have hsel : hfSelectedRequest input.messages
      (fullSystemInstruction input.systemInstruction input.language) =
      hfImageRequest input.messages
        (fullSystemInstruction input.systemInstruction input.language) :=
    hfSelectedRequest_image _ _ m i hm hscan
  have hmem : m ∈ input.messages :=
    List.mem_reverse.mp (List.mem_of_find?_eq_some hm)
  refine ⟨?_, rfl, ?_, ?_, ?_, ?_, ?_⟩
  · rw [analyze_hf_eq env input hfR oaiR k hkk, hsel]
  · exact ⟨input.systemInstruction ++ "\n\nIMPORTANT: You MUST provide your response in ",
      by simp [fullSystemInstruction, langInstruction, String.append_assoc]⟩
  · refine List.mem_map.mpr ⟨p, ?_, by simp [partContent, hp]⟩
    rw [hparts]
    exact List.mem_append_right l₁ (List.mem_cons_self p l₂)
  · exact List.mem_cons_of_mem _ (List.mem_map.mpr ⟨m, hmem, rfl⟩)
  · intro t q hq hqi hqt
    exact List.mem_map.mpr ⟨q, hq, by simp [partContent, hqi, hqt]⟩
  · intro t ht
    rw [analyze_hf_eq env input hfR oaiR k hkk, hsel, ht]

/-- Witness for C5 at the specification scenario: one user message carrying
the png image AAA and the question, system instruction Describe., language
French. -/
theorem c5_image_scenario_witness :
    (analyze envHFOnly scenarioInput okOracle okOracle).1 =
      .hf (hfImageRequest scenarioInput.messages
        (fullSystemInstruction scenarioInput.systemInstruction scenarioInput.language)) ∧
    ContentPart.image_url "data:image/png;base64,AAA" ∈ scenarioMsg.parts.map partContent ∧
    ContentPart.text "What is this?" ∈ scenarioMsg.parts.map partContent ∧
    (analyze envHFOnly scenarioInput okOracle okOracle).2 =
      ⟨200, .text "a detailed description"⟩ := by
  have h := c5_image_scenario envHFOnly scenarioInput okOracle okOracle scenarioMsg
    [] [scenarioTextPart] scenarioImagePart ⟨"AAA", "image/png"⟩
    rfl rfl rfl rfl (by decide) (by decide)
  exact ⟨h.1, h.2.2.2.1, h.2.2.2.2.2.1 "What is this?" scenarioTextPart
      (by decide) rfl rfl, h.2.2.2.2.2.2 "a detailed description" rfl⟩

/-- The Hugging Face path takes the text-only branch when the conversation
has no user message at all. -/
theorem hfSelectedRequest_no_user (messages : List ChatMessage) (fullSys : String)
    (hm : lastUserMsg messages = none) :
    hfSelectedRequest messages fullSys = hfTextRequest messages fullSys := by
  simp [hfSelectedRequest, hm]

/-- Whatever branch is taken, the outbound Hugging Face body opens with the
system message carrying the full system instruction. -/
theorem hfSelectedRequest_head (messages : List ChatMessage) (fullSys : String) :
    (hfSelectedRequest messages fullSys).messages.head? =
      some { role := "system", content := .str fullSys } := by
  cases hm : lastUserMsg messages with
  | none => rw [hfSelectedRequest_no_user messages fullSys hm]; rfl
  | some m =>
      cases hsc : (scanParts m.parts).1 with
      | none => rw [hfSelectedRequest_text messages fullSys m hm hsc]; rfl
      | some i => rw [hfSelectedRequest_image messages fullSys m i hm hsc]; rfl

/-- C6: when the request routes to the OpenAI-compatible adapter the outbound
body serializes every conversation message as a content array after the
system message, every image part becomes a base64 data URI image_url entry,
and the model is llava when OLLAMA_BASE_URL is set and gpt-4o otherwise. -/
theorem c6_openai_serialization (env : Env) (input : AnalyzeInput)
    (hfR oaiR : ChatRequest → Except String String)
    (hno : env.huggingfaceApiKey = none)
    (hcli : (getOpenAIClient env).isSome) :
    (analyze env input hfR oaiR).1 =
      .openai (openaiRequest env input.messages
        (fullSystemInstruction input.systemInstruction input.language)) ∧
    (openaiRequest env input.messages
        (fullSystemInstruction input.systemInstruction input.language)).model =
      (if env.ollamaBaseUrl.isSome then "llava" else "gpt-4o") ∧
    (openaiRequest env input.messages
        (fullSystemInstruction input.systemInstruction input.language)).messages =
      { role := "system",
        content := .str (fullSystemInstruction input.systemInstruction input.language) } ::
        input.messages.map formatMessage ∧
    (∀ msg ∈ input.messages,
      OutMessage.mk msg.role.str (.parts (msg.parts.map partContent)) ∈
        (openaiRequest env input.messages
          (fullSystemInstruction input.systemInstruction input.language)).messages) ∧
    (∀ msg ∈ input.messages, ∀ part ∈ msg.parts, ∀ i, part.image = some i →
      ContentPart.image_url ("data:" ++ i.mimeType ++ ";base64," ++ i.data) ∈
        msg.parts.map partContent) := by
  obtain ⟨c, hc⟩ := Option.isSome_iff_exists.mp hcli
  refine ⟨?_, rfl, rfl, ?_, ?_⟩
  · rw [analyze_openai_eq env input hfR oaiR c hno hc]
  · intro msg hmsg
    exact List.mem_cons_of_mem _ (List.mem_map.mpr ⟨msg, hmsg, rfl⟩)
  · intro msg _ part hpart i hi
    exact List.mem_map.mpr ⟨part, hpart, by simp [partContent, hi]⟩

/-- Witness for C6: with only the Ollama base URL configured the call goes to
the OpenAI-compatible adapter with model llava; the conversation image is
inlined as a data URI. -/
theorem c6_openai_serialization_witness :
    (analyze envOllamaOnly scenarioInput okOracle okOracle).1 =
      .openai (openaiRequest envOllamaOnly scenarioInput.messages
        (fullSystemInstruction scenarioInput.systemInstruction scenarioInput.language)) ∧
    (openaiRequest envOllamaOnly scenarioInput.messages
        (fullSystemInstruction scenarioInput.systemInstruction scenarioInput.language)).model =
      "llava" ∧
    ContentPart.image_url "data:image/png;base64,AAA" ∈ scenarioMsg.parts.map partContent := by
  have h := c6_openai_serialization envOllamaOnly scenarioInput okOracle okOracle rfl rfl
  refine ⟨h.1, by rw [h.2.1]; rfl, ?_⟩
  exact h.2.2.2.2 scenarioMsg (by decide) scenarioImagePart (by decide)
    ⟨"AAA", "image/png"⟩ rfl

/-- C7: with its credential present, the Gemini adapter records exactly one
generateContent call whose contents serialize the entire conversation (an
inlineData part carrying base64 data and mime type per image part, a text
part otherwise), map the assistant role to model and the user role to user,
and whose temperature is the fixed 0.7. -/
theorem c7_gemini_serialization (k : String) (messages : List ChatMessage)
    (sys lang : String) (callG : GeminiRequest → Except String (Option String)) :
    (analyzeImageAndChat (some k) messages sys lang callG).1 =
      some (geminiRequest messages sys lang) ∧
    (geminiRequest messages sys lang).model = GEMINI_MODEL ∧
    (geminiRequest messages sys lang).temperature = 7 / 10 ∧
    (geminiRequest messages sys lang).contents = messages.map geminiContentOf ∧
    (∀ m ∈ messages,
      (m.role = MessageRole.assistant → (geminiContentOf m).role = "model") ∧
      (m.role = MessageRole.user → (geminiContentOf m).role = "user")) ∧
    (∀ m ∈ messages, ∀ p ∈ m.parts,
      (∀ i, p.image = some i →
        GeminiPart.inlineData i.data i.mimeType ∈ (geminiContentOf m).parts) ∧
      (p.image = none →
        GeminiPart.text (p.text.getD "") ∈ (geminiContentOf m).parts)) := by
  refine ⟨?_, rfl, by norm_num [geminiRequest], rfl, ?_, ?_⟩
  · cases h : callG (geminiRequest messages sys lang) <;>
      simp [analyzeImageAndChat, h]
  · intro m _
    exact ⟨fun hr => by simp [geminiContentOf, hr],
      fun hr => by simp [geminiContentOf, hr]⟩
  · intro m _ p hp
    exact ⟨fun i hi => List.mem_map.mpr ⟨p, hp, by simp [geminiPartOf, hi]⟩,
      fun hi => List.mem_map.mpr ⟨p, hp, by simp [geminiPartOf, hi]⟩⟩

/-- Witness for C7 at a two-message conversation. -/
theorem c7_gemini_serialization_witness :
    ((analyzeImageAndChat (some "g-key") [sampleTextMsg, sampleAssistantMsg]
        "Describe." "English" gOkOracle).1.map GeminiRequest.contents) =
      some ([sampleTextMsg, sampleAssistantMsg].map geminiContentOf) ∧
    ((analyzeImageAndChat (some "g-key") [sampleTextMsg, sampleAssistantMsg]
        "Describe." "English" gOkOracle).1.map GeminiRequest.temperature) =
      some (7 / 10) := by
  have h := c7_gemini_serialization "g-key" [sampleTextMsg, sampleAssistantMsg]
    "Describe." "English" gOkOracle
  refine ⟨?_, ?_⟩
  · rw [h.1]; exact congrArg some h.2.2.2.1
  · rw [h.1]; exact congrArg some h.2.2.1

/-- C9: in the multimodal branch the outbound body embeds every image part of
every conversation message as a base64 data URI, not only the image of the
latest user message; the latest user message scan only selects the branch,
the request itself is built from the whole conversation. -/
theorem c9_all_images_embedded (env : Env) (input : AnalyzeInput)
    (hfR oaiR : ChatRequest → Except String String) (m : ChatMessage) (i : ImagePayload)
    (hk : env.huggingfaceApiKey.isSome)
    (hm : lastUserMsg input.messages = some m)
    (hscan : (scanParts m.parts).1 = some i) :
    (analyze env input hfR oaiR).1 =
      .hf (hfImageRequest input.messages
        (fullSystemInstruction input.systemInstruction input.language)) ∧
    (∀ msg ∈ input.messages,
      OutMessage.mk msg.role.str (.parts (msg.parts.map partContent)) ∈
        (hfImageRequest input.messages
          (fullSystemInstruction input.systemInstruction input.language)).messages) ∧
    (∀ msg ∈ input.messages, ∀ part ∈ msg.parts, ∀ j, part.image = some j →
      ContentPart.image_url ("data:" ++ j.mimeType ++ ";base64," ++ j.data) ∈
        msg.parts.map partContent) := by
  obtain ⟨k, hkk⟩ := Option.isSome_iff_exists.mp hk
  refine ⟨?_, ?_, ?_⟩
  · rw [analyze_hf_eq env input hfR oaiR k hkk,
      hfSelectedRequest_image input.messages _ m i hm hscan]
  · intro msg hmsg
    exact List.mem_cons_of_mem _ (List.mem_map.mpr ⟨msg, hmsg, rfl⟩)
  · intro msg _ part hpart j hj
    exact List.mem_map.mpr ⟨part, hpart, by simp [partContent, hj]⟩

/-- Witness for C9: a conversation with a jpeg image in an earlier user turn
and a png image in the latest turn embeds both data URIs in the outbound
body. -/
theorem c9_all_images_embedded_witness :
    (analyze envHFOnly multiImageInput okOracle okOracle).1 =
      .hf (hfImageRequest multiImageInput.messages
        (fullSystemInstruction multiImageInput.systemInstruction multiImageInput.language)) ∧
    ContentPart.image_url "data:image/jpeg;base64,BBB" ∈
      earlierImageMsg.parts.map partContent ∧
    ContentPart.image_url "data:image/png;base64,AAA" ∈
      scenarioMsg.parts.map partContent := by
  have h := c9_all_images_embedded envHFOnly multiImageInput okOracle okOracle
    scenarioMsg ⟨"AAA", "image/png"⟩ rfl rfl rfl
  refine ⟨h.1, ?_, ?_⟩
  · exact h.2.2 earlierImageMsg (by decide) { image := some ⟨"BBB", "image/jpeg"⟩ }
      (by decide) ⟨"BBB", "image/jpeg"⟩ rfl
  · exact h.2.2 scenarioMsg (by decide) scenarioImagePart (by decide)
      ⟨"AAA", "image/png"⟩ rfl

/-- C10: a conversation with no user-role message, the empty conversation
included, does not break the Hugging Face path: the latest-user lookup yields
nothing, the text-only branch is taken, the body is the system message
followed by the serialized (possibly empty) message list, and a resolved call
answers 200 with the provider text. -/
theorem c10_no_user_message (env : Env) (input : AnalyzeInput)
    (hfR oaiR : ChatRequest → Except String String)
    (hk : env.huggingfaceApiKey.isSome)
    (hnouser : ∀ m ∈ input.messages, m.role ≠ MessageRole.user) :
    lastUserMsg input.messages = none ∧
    (analyze env input hfR oaiR).1 =
      .hf (hfTextRequest input.messages
        (fullSystemInstruction input.systemInstruction input.language)) ∧
    (hfTextRequest input.messages
        (fullSystemInstruction input.systemInstruction input.language)).messages =
      { role := "system",
        content := .str (fullSystemInstruction input.systemInstruction input.language) } ::
        input.messages.map (fun mm =>
          { role := mm.role.str, content := .str (textContent mm) }) ∧
    (∀ t, hfR (hfTextRequest input.messages
        (fullSystemInstruction input.systemInstruction input.language)) = .ok t →
      (analyze env input hfR oaiR).2 = ⟨200, .text t⟩) := by
  obtain ⟨k, hkk⟩ := Option.isSome_iff_exists.mp hk
  have hnone : lastUserMsg input.messages = none := lastUserMsg_eq_none input.messages hnouser
  have hsel := hfSelectedRequest_no_user input.messages
    (fullSystemInstruction input.systemInstruction input.language) hnone
  refine ⟨hnone, ?_, rfl, ?_⟩
  · rw [analyze_hf_eq env input hfR oaiR k hkk, hsel]
  · intro t ht
    rw [analyze_hf_eq env input hfR oaiR k hkk, hsel, ht]

/-- Witness for C10 at the empty conversation and at an assistant-only
conversation. -/
theorem c10_no_user_message_witness :
    (analyze envHFOnly emptyInput okOracle okOracle).1 =
      .hf (hfTextRequest emptyInput.messages
        (fullSystemInstruction emptyInput.systemInstruction emptyInput.language)) ∧
    (analyze envHFOnly assistantOnlyInput okOracle okOracle).1 =
      .hf (hfTextRequest assistantOnlyInput.messages
        (fullSystemInstruction assistantOnlyInput.systemInstruction
          assistantOnlyInput.language)) ∧
    (analyze envHFOnly emptyInput okOracle okOracle).2 =
      ⟨200, .text "a detailed description"⟩ := by
  have h1 := c10_no_user_message envHFOnly emptyInput okOracle okOracle rfl (by decide)
  have h2 := c10_no_user_message envHFOnly assistantOnlyInput okOracle okOracle rfl (by decide)
  exact ⟨h1.2.1, h2.2.1, h1.2.2.2 "a detailed description" rfl⟩

/-- Counterexample to C8 as stated: with the credential present and the
provider resolving with a response carrying no text, the hosted-generation
adapter does not fail with an error; it succeeds with a fixed apology text. -/
theorem c8_adapter_contract_counterexample :
    (analyzeImageAndChat (some "g-key") [sampleTextMsg] "Describe." "English"
      gNoneOracle).2 = .ok "I\x27m sorry, I couldn\x27t analyze that image." := by
  rfl

/-- C8 amended: every adapter sends the system instruction with the language
instruction appended; the hosted-generation adapter fails with its
provider-specific error when its credential is missing (making no call) and
propagates a rejected call verbatim; a resolved response with text is passed
through as the result; but a resolved response with no text yields the fixed
apology text as a success value rather than an error. -/
theorem c8_adapter_contract :
    (∀ messages sys lang,
      (hfSelectedRequest messages (fullSystemInstruction sys lang)).messages.head? =
        some { role := "system", content := .str (sys ++ langInstruction lang) }) ∧
    (∀ env messages sys lang,
      (openaiRequest env messages (fullSystemInstruction sys lang)).messages.head? =
        some { role := "system", content := .str (sys ++ langInstruction lang) }) ∧
    (∀ k messages sys lang callG,
      (analyzeImageAndChat (some k) messages sys lang callG).1 =
        some (geminiRequest messages sys lang) ∧
      (geminiRequest messages sys lang).systemInstruction = sys ++ langInstruction lang) ∧
    (∀ messages sys lang callG,
      analyzeImageAndChat none messages sys lang callG =
        (none, .error "GEMINI_API_KEY is not configured.")) ∧
    (∀ k messages sys lang callG e,
      callG (geminiRequest messages sys lang) = .error e →
      (analyzeImageAndChat (some k) messages sys lang callG).2 = .error e) ∧
    (∀ k messages sys lang callG t,
      callG (geminiRequest messages sys lang) = .ok (some t) → t ≠ "" →
      (analyzeImageAndChat (some k) messages sys lang callG).2 = .ok t) ∧
    (∀ k messages sys lang callG,
      callG (geminiRequest messages sys lang) = .ok none →
      (analyzeImageAndChat (some k) messages sys lang callG).2 = .ok geminiFallback) := by
  refine ⟨?_, fun env messages sys lang => rfl, ?_, fun messages sys lang callG => rfl,
    ?_, ?_, ?_⟩
  · intro messages sys lang
    exact hfSelectedRequest_head messages (fullSystemInstruction sys lang)
  · intro k messages sys lang callG
    refine ⟨?_, rfl⟩
    cases h : callG (geminiRequest messages sys lang) <;>
      simp [analyzeImageAndChat, h]
  · intro k messages sys lang callG e h
    simp [analyzeImageAndChat, h]
  · intro k messages sys lang callG t h ht
    simp [analyzeImageAndChat, h, ht]
  · intro k messages sys lang callG h
    simp [analyzeImageAndChat, h]

/-- Witness for C8 amended: missing credential fails without a call, a
rejected call propagates its message, and a resolved call passes its text
through. -/
theorem c8_adapter_contract_witness :
    analyzeImageAndChat Option.none [sampleTextMsg] "Describe." "English" gOkOracle =
      (Option.none, .error "GEMINI_API_KEY is not configured.") ∧
    (analyzeImageAndChat (some "g-key") [sampleTextMsg] "Describe." "English"
      gFailOracle).2 = .error "quota exceeded" ∧
    (analyzeImageAndChat (some "g-key") [sampleTextMsg] "Describe." "English"
      gOkOracle).2 = .ok "ok text" := by
  refine ⟨c8_adapter_contract.2.2.2.1 [sampleTextMsg] "Describe." "English" gOkOracle,
    c8_adapter_contract.2.2.2.2.1 "g-key" [sampleTextMsg] "Describe." "English"
      gFailOracle "quota exceeded" rfl,
    c8_adapter_contract.2.2.2.2.2.1 "g-key" [sampleTextMsg] "Describe." "English"
      gOkOracle "ok text" rfl (by decide)⟩

end VisionTalk
